import Mathlib

/-!
Verification development for the TechFlow retention multi-agent workflow.

Strings from the Python source are embedded as `List Char`.  The opaque
external collaborators (the text-generation model, the semantic retrieval
subsystem, the customer CSV store) are parameters of the embedding: every
deterministic piece of the source (keyword cascades, regex scans, offer
filtering, state routing) is translated faithfully from the code.
-/

/-- ASCII lower-casing of one character, the model of Python `str.lower()`
on the ASCII texts handled by this program. -/
def lowerChar (c : Char) : Char :=
  if 'A' ≤ c ∧ c ≤ 'Z' then Char.ofNat (c.toNat + 32) else c

/-- Lower-case a whole string. -/
def lowerStr (s : List Char) : List Char := s.map lowerChar

/-- The characters Python treats as whitespace in `str.strip()` and in the
regex class for blank characters (space, tab, newline, return, vertical tab,
form feed). -/
def isPySpace (c : Char) : Bool :=
  c = ' ' || c = '\t' || c = '\n' || c = '\r' || c = Char.ofNat 11 || c = Char.ofNat 12

/-- Model of Python `str.strip()`: drop whitespace from both ends. -/
def pyStrip (l : List Char) : List Char :=
  ((l.dropWhile isPySpace).reverse.dropWhile isPySpace).reverse

/-- Model of Python `s.split(chr(10))`: split a text into its lines. -/
def splitOnNl : List Char → List (List Char)
  | [] => [[]]
  | c :: cs =>
    if c = '\n' then [] :: splitOnNl cs
    else
      match splitOnNl cs with
      | [] => [[c]]
      | l :: ls => (c :: l) :: ls

/-- Model of Python `chr(10).join(lines)`. -/
def joinNl (ls : List (List Char)) : List Char := List.intercalate ['\n'] ls

/-- Model of the Python substring test `needle in haystack`. -/
def isSubstr (n : List Char) : List Char → Bool
  | [] => n.isEmpty
  | c :: t => n.isPrefixOf (c :: t) || isSubstr n t

/-- Model of Python `int(digit_string)` on a list of decimal digits. -/
def digitsVal (ds : List Char) : Nat :=
  ds.foldl (fun acc c => 10 * acc + (c.toNat - 48)) 0

/-- Decimal digit test, the regex class for digits. -/
def isDigitCh (c : Char) : Bool := '0' ≤ c && c ≤ '9'

/-! ## GreeterAgent._parse_fallback (src/agents/greeter_agent.py lines 117-147) -/

/-- A parsed or fallback classification result is handled by the greeter as a
string-valued dictionary; it is embedded as an association list. -/
abbrev JsonObj := List (List Char × List Char)

/-- Cancellation phrase list of the fallback cascade
(greeter_agent.py lines 122-127). -/
def cancellationPhrases : List (List Char) :=
  ["cancel".toList, "cancellation".toList, "can\x27t afford".toList,
   "can\x27t pay".toList, "too expensive".toList, "get rid of".toList,
   "get rid".toList, "remove".toList, "discount".toList,
   "custom billing".toList, "billing arrangements".toList,
   "payment plan".toList, "special payment".toList,
   "flexible payment".toList, "change payment".toList]

/-- Technical-malfunction word list of the fallback cascade
(greeter_agent.py line 130). -/
def technicalWords : List (List Char) :=
  ["overheat".toList, "charging".toList, "won\x27t charge".toList,
   "phone won\x27t".toList, "not working".toList, "technical".toList,
   "troubleshoot".toList]

/-- Billing phrase list of the fallback cascade (greeter_agent.py
lines 134-137). -/
def billingPhrases : List (List Char) :=
  ["got charged".toList, "charged".toList, "what\x27s the extra".toList,
   "what is the extra".toList, "billing".toList, "statement".toList,
   "bill".toList, "unexpected charge".toList]

/-- Intent computed by the deterministic fallback cascade
(greeter_agent.py lines 118-138). -/
def fallbackIntent (text : List Char) : List Char :=
  let tl := lowerStr text
  if cancellationPhrases.any (fun p => isSubstr p tl) then "cancellation".toList
  else if (technicalWords.any (fun p => isSubstr p tl))
      && !(isSubstr "cancel".toList tl) then "technical_support".toList
  else if (billingPhrases.any (fun p => isSubstr p tl))
      && !(isSubstr "can\x27t afford".toList tl)
      && !(isSubstr "cancel".toList tl)
      && !(isSubstr "custom".toList tl)
      && !(isSubstr "arrangements".toList tl)
      && !(isSubstr "get rid".toList tl) then "billing".toList
  else "general".toList

/-- Routing target computed from the fallback intent
(greeter_agent.py lines 140-146). -/
def fallbackNextAgent (intent : List Char) : List Char :=
  if intent = "cancellation".toList then "retention".toList
  else if intent = "technical_support".toList then "technical_support".toList
  else if intent = "billing".toList then "billing".toList
  else "none".toList

/-- The dictionary returned by `GreeterAgent._parse_fallback`
(greeter_agent.py line 147).  An empty email stands for Python `None`. -/
def parse_fallback (text email : List Char) : JsonObj :=
  [("intent".toList, fallbackIntent text),
   ("customer_email".toList, if email = [] then "not_provided".toList else email),
   ("next_agent".toList, fallbackNextAgent (fallbackIntent text)),
   ("reasoning".toList, text.take 200)]

/-! ## RetentionAgent.process: cancellation-acceptance decision
(src/agents/retention_agent.py lines 216-240) -/

/-- Cancellation-acceptance phrases (retention_agent.py lines 223-230). -/
def acceptancePhrases : List (List Char) :=
  ["process the cancellation".toList, "proceed with cancellation".toList,
   "process your cancellation".toList,
   "i understand your decision to cancel".toList,
   "respect your choice to cancel".toList, "proceed with canceling".toList]

/-- Offer-presenting phrases (retention_agent.py lines 233-239). -/
def offerPhrases : List (List Char) :=
  ["before we".toList, "let me offer".toList, "i can arrange".toList,
   "we can".toList, "how about".toList]

/-- The `should_process_cancellation` flag computed from the response text
(retention_agent.py lines 221-240). -/
def shouldProcessCancellation (response : List Char) : Bool :=
  let rl := lowerStr response
  (acceptancePhrases.any (fun p => isSubstr p rl))
    && !(offerPhrases.any (fun p => isSubstr p rl))

/-! ## RetentionAgent.process: response clean-up
(src/agents/retention_agent.py lines 187-214) -/

/-- Reasoning-leak markers (retention_agent.py lines 197-200). -/
def reasoningPhrases : List (List Char) :=
  ["in this response".toList, "i\x27m empathizing".toList,
   "i\x27m offering".toList, "this option provides".toList,
   "i\x27m presenting".toList, "in this response i\x27m".toList]

/-- A line starting the reasoning section: any marker occurs in the
lower-cased, stripped line. -/
def isReasoningLine (line : List Char) : Bool :=
  reasoningPhrases.any (fun p => isSubstr p (pyStrip (lowerStr line)))

/-- Strip leaked reasoning from the generated text: keep the lines before the
first marker line, re-join and strip; if nothing remains, revert to the raw
text (retention_agent.py lines 187-214). -/
def cleanResponse (raw : List Char) : List Char :=
  let kept := (splitOnNl raw).takeWhile (fun l => !(isReasoningLine l))
  let out := pyStrip (joinNl kept)
  if out.isEmpty then raw else out

/-! ## RetentionAgent._classify_reason (retention_agent.py lines 315-323) -/

/-- Cancellation-reason cascade, first match wins, defaulting to
financial_hardship. -/
def classifyReason (message : List Char) : List Char :=
  let ml := lowerStr message
  if ["afford".toList, "money".toList, "cost".toList, "expensive".toList,
      "can\x27t pay".toList, "financial".toList].any
        (fun p => isSubstr p ml) then "financial_hardship".toList
  else if ["overheat".toList, "broken".toList, "defect".toList,
      "not working".toList, "issue".toList, "problem".toList,
      "return".toList].any (fun p => isSubstr p ml) then "product_issues".toList
  else if ["never used".toList, "don\x27t need".toList, "value".toList,
      "worth".toList, "useless".toList, "waste".toList].any
        (fun p => isSubstr p ml) then "service_value".toList
  else "financial_hardship".toList

/-! ## RetentionAgent.process: over-limit discount detection
(src/agents/retention_agent.py lines 78-98)

The source runs the Python search for the pattern digits-blanks-percent over
the raw message and keeps the first (leftmost) match.  Because a digit run
can only be followed in the pattern by blanks and then the percent sign, the
search is equivalent to the following left-to-right automaton whose state
holds the value of the digit run currently pending (and whether the run can
still be extended by a further digit). -/

/-- One left-to-right pass of the search for the leftmost
digits-blanks-percent match; the state carries the pending run value and
whether the run is still extendable. -/
def percentScan : Option (Nat × Bool) → List Char → Option Nat
  | _, [] => none
  | st, c :: cs =>
    if isDigitCh c then
      match st with
      | some (v, true) => percentScan (some (10 * v + (c.toNat - 48), true)) cs
      | _ => percentScan (some (c.toNat - 48, true)) cs
    else if c = '%' then
      match st with
      | some (v, _) => some v
      | none => percentScan none cs
    else if isPySpace c then
      match st with
      | some (v, _) => percentScan (some (v, false)) cs
      | none => percentScan none cs
    else percentScan none cs

/-- The leftmost digits-blanks-percent match in the message, as the numeric
value of its digit run (the model of the `re.search` call on line 85). -/
def findPercentMatch (msg : List Char) : Option Nat := percentScan none msg

/-- The over-limit discount check (retention_agent.py lines 79-98): under the
guard that the lower-cased message mentions a discount or a percent sign,
take the first digits-blanks-percent match; the warning instruction text is
synthesized (result `some r`) exactly when the matched value `r` exceeds the
agent ceiling. -/
def overLimitDiscountRequest (msg : List Char) (maxAgentDiscount : Nat) : Option Nat :=
  let ml := lowerStr msg
  if isSubstr "discount".toList ml || isSubstr "%".toList ml then
    match findPercentMatch msg with
    | some r => if maxAgentDiscount < r then some r else none
    | none => none
  else none

/-! ## Offer catalog (src/tools/customer_tools.py lines 53-121) -/

/-- An offer record from the retention rules, embedded as the string-valued
dictionary the code reads it as (the authorization level sits under the key
`authorization` when present). -/
abbrev Offer := List (List Char × List Char)

/-- One reason block of the rules: named groups of offers. -/
abbrev ReasonBlock := List (List Char × List Offer)

/-- The loaded retention rules: reason blocks keyed by reason. -/
abbrev Rules := List (List Char × ReasonBlock)

/-- Result of `calculate_retention_offer`: an error dictionary or a success
dictionary carrying the offers. -/
inductive OfferOutcome where
  | err (msg : List Char)
  | ok (tier reason : List Char) (offers : List Offer)
deriving DecidableEq

/-- The tier-to-rules-key mapping (customer_tools.py lines 74-78), applied to
the lower-cased tier. -/
def tierMapping (tierLower : List Char) : Option (List Char) :=
  if tierLower = "premium".toList then some "premium_customers".toList
  else if tierLower = "regular".toList then some "regular_customers".toList
  else if tierLower = "new".toList then some "new_customers".toList
  else none

/-- `calculate_retention_offer` (customer_tools.py lines 53-121), over the
rules configuration loaded from the catalog file. -/
def calculate_retention_offer (rules : Rules) (customer_tier reason : List Char) :
    OfferOutcome :=
  match rules.lookup reason with
  | none => .err ("Unknown reason: ".toList ++ reason)
  | some reasonBlock =>
    if reason = "financial_hardship".toList then
      match tierMapping (lowerStr customer_tier) with
      | none => .err ("No offers for tier ".toList ++ customer_tier)
      | some tierKey =>
        match reasonBlock.lookup tierKey with
        | none => .err ("No offers for tier ".toList ++ customer_tier)
        | some offers => .ok customer_tier reason offers
    else if reason = "product_issues".toList then
      .ok customer_tier reason
        (((reasonBlock.lookup "overheating".toList).getD [])
          ++ ((reasonBlock.lookup "battery_issues".toList).getD []))
    else if reason = "service_value".toList then
      .ok customer_tier reason ((reasonBlock.lookup "care_plus_premium".toList).getD [])
    else .err ("No offers for reason: ".toList ++ reason)

/-! ## RetentionAgent.process: authorization split
(src/agents/retention_agent.py lines 63-76) -/

/-- The per-offer authorization cascade of the filtering loop: offers tagged
`agent` or carrying no authorization key go to the agent list, offers tagged
`manager` go to the manager list, anything else goes nowhere. -/
def authorizationSplit : List Offer → List Offer × List Offer
  | [] => ([], [])
  | o :: rest =>
    let s := authorizationSplit rest
    if o.lookup "authorization".toList = some "agent".toList then (o :: s.1, s.2)
    else if o.lookup "authorization".toList = some "manager".toList then (s.1, o :: s.2)
    else if (o.lookup "authorization".toList).isNone then (o :: s.1, s.2)
    else (s.1, s.2)

/-! ## GreeterAgent.process: JSON extraction (greeter_agent.py lines 94-105)

The extraction pattern is brace, non-braces, any number of groups of
(brace, non-braces, closing brace, non-braces), closing brace.  At a given
start position the backtracking search is deterministic: the body may hold
plain characters and complete one-level brace groups, and the match closes at
the first top-level closing brace; a nested opening brace inside a group
kills the whole start position.  The search then moves one character right.
`scanBraceBody` scans the body after an opening brace with enough fuel for
the remaining text; `regexBraceSearch` tries start positions left to
right. -/

/-- Body scan for the extraction pattern, returning the matched body
including its closing brace. -/
def scanBraceBody : Nat → List Char → Option (List Char)
  | 0, _ => none
  | _ + 1, [] => none
  | fuel + 1, c :: cs =>
    if c = Char.ofNat 125 then some [c]
    else if c = Char.ofNat 123 then
      let inner := cs.takeWhile (fun x => x ≠ Char.ofNat 123 && x ≠ Char.ofNat 125)
      match cs.dropWhile (fun x => x ≠ Char.ofNat 123 && x ≠ Char.ofNat 125) with
      | r :: rs =>
        if r = Char.ofNat 125 then
          match scanBraceBody fuel rs with
          | some t => some (Char.ofNat 123 :: inner ++ Char.ofNat 125 :: t)
          | none => none
        else none
      | [] => none
    else
      match scanBraceBody fuel cs with
      | some t => some (c :: t)
      | none => none

/-- The leftmost substring of the text matched by the extraction pattern of
greeter_agent.py line 95. -/
def regexBraceSearch : List Char → Option (List Char)
  | [] => none
  | c :: cs =>
    if c = Char.ofNat 123 then
      match scanBraceBody (cs.length + 1) cs with
      | some body => some (Char.ofNat 123 :: body)
      | none => regexBraceSearch cs
    else regexBraceSearch cs

/-- Modelled from the spec: the outermost balanced-brace object of a text is
the substring running from the first opening brace to the brace that closes
it, counting nesting depth.  This is the comparison definition for the claim
that the extraction locates the outermost balanced-brace object. -/
def balancedScan (depth : Nat) : List Char → Option (List Char)
  | [] => none
  | c :: cs =>
    if c = Char.ofNat 125 then
      if depth = 1 then some [c]
      else (fun t => c :: t) <$> balancedScan (depth - 1) cs
    else if c = Char.ofNat 123 then (fun t => c :: t) <$> balancedScan (depth + 1) cs
    else (fun t => c :: t) <$> balancedScan depth cs

/-- Modelled from the spec: the outermost balanced-brace object within the
free-form output, tolerating surrounding prose. -/
def outermostBraceObject : List Char → Option (List Char)
  | [] => none
  | c :: cs =>
    if c = Char.ofNat 123 then (fun t => c :: t) <$> balancedScan 1 cs
    else outermostBraceObject cs

/-- The classification dictionary used by `GreeterAgent.process`
(greeter_agent.py lines 94-105): the extracted substring is handed to the
parser (an opaque parameter standing for `json.loads`); on no match, parse
failure, or a missing required field, the deterministic fallback is used. -/
def classifyResult (parse : List Char → Option JsonObj)
    (text message email : List Char) : JsonObj :=
  match regexBraceSearch text with
  | some s =>
    match parse s with
    | some obj =>
      if (obj.lookup "intent".toList).isSome
          && (obj.lookup "next_agent".toList).isSome then obj
      else parse_fallback message email
    | none => parse_fallback message email
  | none => parse_fallback message email

/-! ## Workflow state (src/workflow.py lines 21-32) -/

/-- One emitted agent response: the producing role and its text. -/
structure AgentResp where
  agent : List Char
  response : List Char
deriving DecidableEq

/-- The `ConversationState` dictionary of workflow.py.  Empty strings stand
for Python empty strings or `None`; the customer profile is a string-valued
dictionary. -/
structure WfState where
  customer_message : List Char
  customer_email : List Char
  customer_data : List (List Char × List Char)
  intent : List Char
  next_agent : List Char
  conversation_history : List (List Char)
  agent_responses : List AgentResp
  final_action : List Char
  completed : Bool
  should_process_cancellation : Bool
deriving DecidableEq

/-- The opaque collaborators of one turn, plus the loaded configuration:
the text-generation outputs (classification text, general answer, retention
output, processor confirmation), the JSON parser, the email-pattern scan
over the message, the retrieval subsystem, the customer store and the
retention rules (reason blocks plus the configured agent discount
ceiling). -/
structure Env where
  rules : Rules
  maxAgentDiscount : Nat
  jsonParse : List Char → Option JsonObj
  greeterText : List Char
  emailFound : Option (List Char)
  generalAnswer : List Char
  retentionRaw : List Char
  processorText : List Char
  rag : List Char → Nat → List Char
  lookupCustomer : List Char → Option (List (List Char × List Char))

/-- Python `a or b` on strings, with the empty string falsy. -/
def pyOrStr (a b : List Char) : List Char := if a = [] then b else a

/-- Python `d.get(k) or b` where a missing key or empty value falls back. -/
def pyOrOpt (a : Option (List Char)) (b : List Char) : List Char :=
  match a with
  | some s => if s = [] then b else s
  | none => b

/-! ## GreeterAgent.process result (greeter_agent.py lines 30-115) -/

/-- The fields of the dictionary returned by `GreeterAgent.process` that the
workflow consumes. -/
structure GreeterResult where
  intent : List Char
  customer_email : List Char
  customer_data : Option (List (List Char × List Char))
  next_agent : List Char

/-- `GreeterAgent.process`: extract an email from the message when none was
given (the email-pattern scan is the opaque `emailFound`), look the customer
up, classify via the generation model with the deterministic fallback, and
assemble the result dictionary (greeter_agent.py lines 30-115). -/
def greeterProcess (env : Env) (message email : List Char) : GreeterResult :=
  let email1 := if email = [] then (env.emailFound.getD []) else email
  let cdata := if email1 ≠ [] then env.lookupCustomer email1 else none
  let robj := classifyResult env.jsonParse env.greeterText message email1
  { intent := (robj.lookup "intent".toList).getD "general".toList,
    customer_email := pyOrOpt (robj.lookup "customer_email".toList) email1,
    customer_data := cdata,
    next_agent := (robj.lookup "next_agent".toList).getD "none".toList }

/-- Routing message appended by the greeter node when the turn is routed
(workflow.py line 149). -/
def routingMessage (intent next_agent : List Char) : List Char :=
  "Intent classified: ".toList ++ intent ++ ". Routing to ".toList
    ++ next_agent ++ ".".toList

/-- The greeter node (workflow.py lines 98-153): run the greeter, copy its
result into the state; a general intent with no routing target is answered
directly (opaque `generalAnswer`) and completes the turn, otherwise a routing
notice is appended. -/
def greeterNode (env : Env) (st : WfState) : WfState :=
  let r := greeterProcess env st.customer_message st.customer_email
  let st1 := { st with
    intent := r.intent,
    next_agent := r.next_agent,
    customer_email := pyOrStr r.customer_email st.customer_email,
    customer_data := r.customer_data.getD [] }
  if r.intent = "general".toList ∧ r.next_agent = "none".toList then
    { st1 with
      agent_responses := st1.agent_responses ++ [⟨"greeter".toList, env.generalAnswer⟩],
      completed := true }
  else
    { st1 with
      agent_responses := st1.agent_responses
        ++ [⟨"greeter".toList, routingMessage r.intent r.next_agent⟩] }

/-! ## RetentionAgent.process (retention_agent.py lines 40-250) -/

/-- The fields of the dictionary returned by `RetentionAgent.process`. -/
structure RetentionResult where
  response : List Char
  reason : List Char
  offers_available : Bool
  offers : List Offer
  should_process_cancellation : Bool
  customer_tier : List Char

/-- `RetentionAgent.process`: classify the reason, fetch and split the
offers by authorization, detect an over-limit discount request (which only
shapes the generation prompt), clean the generated text and decide the
cancellation flag.  The email and history parameters feed only the prompt. -/
def retentionProcess (env : Env) (message email : List Char)
    (customer_data : List (List Char × List Char))
    (history : List (List Char)) : RetentionResult :=
  let reason := classifyReason message
  let tier := (customer_data.lookup "tier".toList).getD "regular".toList
  let offersResult := calculate_retention_offer env.rules tier reason
  let allOffers :=
    match offersResult with
    | .ok _ _ os => os
    | .err _ => []
  let split := authorizationSplit allOffers
  let _discountWarning := overLimitDiscountRequest message env.maxAgentDiscount
  let _promptInputs := (email, history)
  let responseText := cleanResponse env.retentionRaw
  { response := responseText,
    reason := reason,
    offers_available := !split.1.isEmpty,
    offers := split.1,
    should_process_cancellation := shouldProcessCancellation responseText,
    customer_tier := tier }

/-- The retention node (workflow.py lines 155-199): fetch the profile when
missing, rebuild a history from prior retention responses when the recorded
history is empty, run the retention agent, append its response and record the
cancellation flag. -/
def retentionNode (env : Env) (st : WfState) : WfState :=
  let data :=
    if st.customer_data = [] then
      if st.customer_email ≠ [] then (env.lookupCustomer st.customer_email).getD []
      else []
    else st.customer_data
  let history :=
    if st.conversation_history = [] ∧ st.agent_responses ≠ [] then
      (st.agent_responses.filter (fun r => r.agent == "retention".toList)).map
        (fun r => r.response)
    else st.conversation_history
  let r := retentionProcess env st.customer_message st.customer_email data history
  { st with
    customer_data := data,
    agent_responses := st.agent_responses ++ [⟨"retention".toList, r.response⟩],
    should_process_cancellation := r.should_process_cancellation,
    conversation_history := st.conversation_history ++ [st.customer_message, r.response] }

/-- The processor node (workflow.py lines 201-221 and processor_agent.py
lines 30-44): write the audit-log entry `cancel_<intent>` for the customer
id (default UNKNOWN), append the confirmation, set the final action and
complete the turn.  The second component is the list of audit-log entries
written during the call. -/
def processorNode (env : Env) (st : WfState) :
    WfState × List (List Char × List Char) :=
  let cid := (st.customer_data.lookup "customer_id".toList).getD "UNKNOWN".toList
  ({ st with
     agent_responses := st.agent_responses ++ [⟨"processor".toList, env.processorText⟩],
     final_action := "cancellation_processed".toList,
     completed := true },
   [(cid, "cancel_".toList ++ st.intent)])

/-! ## Technical-support and billing nodes (workflow.py lines 223-268) -/

/-- Response template of the technical-support node, around the first 500
characters of the retrieved context. -/
def technicalRouteText (ctx : List Char) : List Char :=
  "I understand you\x27re experiencing technical issues. Let me connect you with our technical support team.\n\nBased on your issue, here\x27s some helpful information:\n".toList
    ++ ctx
    ++ "\n\nOur technical specialist will be able to help you resolve this. Would you like me to schedule a callback, or would you prefer to speak with someone right now?".toList

/-- Fixed response of the billing node. -/
def billingRouteText : List Char :=
  "I understand you have a billing question. Let me connect you with our billing department who can help clarify your charges.\n\nFor billing inquiries, our team can:\n- Explain charges on your account\n- Review payment history\n- Adjust billing if there are errors\n- Set up payment plans if needed\n\nWould you like me to transfer you to billing now?".toList

/-- The technical-support node: retrieve context for the message, append the
routing response, set the final action and complete the turn. -/
def technicalNode (env : Env) (st : WfState) : WfState :=
  let context := env.rag st.customer_message 3
  { st with
    agent_responses := st.agent_responses
      ++ [⟨"technical_support".toList, technicalRouteText (context.take 500)⟩],
    final_action := "routed_to_technical_support".toList,
    completed := true }

/-- The billing node: append the fixed routing response, set the final
action and complete the turn. -/
def billingNode (st : WfState) : WfState :=
  { st with
    agent_responses := st.agent_responses ++ [⟨"billing".toList, billingRouteText⟩],
    final_action := "routed_to_billing".toList,
    completed := true }

/-! ## Graph routing (workflow.py lines 53-96 and 270-308) -/

/-- `_route_from_retention` (workflow.py lines 283-308): go to the processor
only when the cancellation flag is set, the last response came from the
retention role, and that response contains an acceptance phrase from the
four-phrase routing list. -/
def routeFromRetentionGoesProcessor (st : WfState) : Bool :=
  st.should_process_cancellation &&
    (match st.agent_responses.getLast? with
     | some last =>
       (last.agent == "retention".toList) &&
         (["process the cancellation".toList, "proceed with cancellation".toList,
           "i understand your decision".toList,
           "respect your choice to cancel".toList].any
           (fun p => isSubstr p (lowerStr last.response)))
     | none => false)

/-- One invocation of the compiled graph: the greeter node, then the
conditional routing to the retention (and possibly processor), technical or
billing node, or directly to the end.  The second component collects the
audit-log entries written. -/
def graphInvoke (env : Env) (st : WfState) :
    WfState × List (List Char × List Char) :=
  let st1 := greeterNode env st
  if st1.next_agent = "retention".toList then
    let st2 := retentionNode env st1
    if routeFromRetentionGoesProcessor st2 then processorNode env st2 else (st2, [])
  else if st1.next_agent = "technical_support".toList then (technicalNode env st1, [])
  else if st1.next_agent = "billing".toList then (billingNode st1, [])
  else (st1, [])

/-! ## Multi-turn run (workflow.py lines 310-425) -/

/-- Insistence phrases re-asserting cancellation intent
(workflow.py lines 346-349). -/
def insistencePhrases : List (List Char) :=
  ["still want to cancel".toList, "just cancel".toList, "cancel anyway".toList,
   "no i want to cancel".toList, "proceed with cancellation".toList]

/-- The incoming message insists on cancelling. -/
def insistsOnCancel (message : List Char) : Bool :=
  insistencePhrases.any (fun p => isSubstr p (lowerStr message))

/-- Affirmative words for a billing follow-up (workflow.py line 363). -/
def billingAffirmWords : List (List Char) :=
  ["yes".toList, "sure".toList, "ok".toList, "transfer".toList, "connect".toList]

/-- Affirmative words for a technical follow-up (workflow.py line 385). -/
def technicalAffirmWords : List (List Char) :=
  ["yes".toList, "sure".toList, "ok".toList, "schedule".toList, "callback".toList]

/-- The message contains one of the given affirmative words. -/
def isAffirmative (words : List (List Char)) (message : List Char) : Bool :=
  words.any (fun w => isSubstr w (lowerStr message))

/-- Transfer confirmation of the billing follow-up (workflow.py line 367). -/
def billingTransferConfirmText : List Char :=
  "Perfect! I\x27m connecting you with our billing department now. They\x27ll be able to review your account and explain the $17.99 charge. You should hear from them shortly. Is there anything else I can help you with?".toList

/-- Elaboration of the billing follow-up around the first 300 characters of
fresh context (workflow.py line 376). -/
def billingElaborationText (ctx : List Char) : List Char :=
  "I understand you\x27d like more information. Here\x27s what I can tell you:\n\n".toList
    ++ ctx
    ++ "\n\nOur billing team can provide the exact breakdown. Would you like me to connect you now?".toList

/-- Callback confirmation of the technical follow-up
(workflow.py line 389). -/
def technicalCallbackConfirmText : List Char :=
  "Great! I\x27m scheduling a callback with our technical specialist for you. They\x27ll call you within the next hour to help resolve your charging issue. Is there anything else I can help you with?".toList

/-- Elaboration of the technical follow-up around the first 300 characters
of fresh context (workflow.py line 396). -/
def technicalElaborationText (ctx : List Char) : List Char :=
  "Let me provide some additional troubleshooting steps:\n\n".toList
    ++ ctx
    ++ "\n\nWould you like me to schedule a callback with our technical specialist?".toList

/-- The fresh initial state (workflow.py lines 409-420). -/
def initialState (message email : List Char) : WfState :=
  { customer_message := message, customer_email := email, customer_data := [],
    intent := [], next_agent := [], conversation_history := [],
    agent_responses := [], final_action := [], completed := false,
    should_process_cancellation := false }

/-- A follow-up turn (workflow.py lines 321-406): copy the previous state,
reset the completion flag, record the message, then dispatch on the role of
the last response — retention re-invokes the retention node and commits the
cancellation when the message insists or the new cancellation flag is set;
billing and technical answer in context; anything else re-runs the graph
with the classification reset. -/
def runFollowup (env : Env) (prev : WfState) (message email : List Char) :
    WfState × List (List Char × List Char) :=
  let st := { prev with
    customer_message := message,
    customer_email := if email ≠ [] then email else prev.customer_email,
    completed := false,
    conversation_history := prev.conversation_history ++ [message] }
  match st.agent_responses.getLast? with
  | some last =>
    if last.agent = "retention".toList then
      let insists := insistsOnCancel message
      let st1 := { st with next_agent := "retention".toList }
      let st2 := retentionNode env st1
      if insists || st2.should_process_cancellation then processorNode env st2
      else (st2, [])
    else if last.agent = "billing".toList then
      let st1 :=
        if isAffirmative billingAffirmWords message then
          { st with agent_responses := st.agent_responses
              ++ [AgentResp.mk "billing".toList billingTransferConfirmText] }
        else
          { st with agent_responses := st.agent_responses
              ++ [AgentResp.mk "billing".toList (billingElaborationText
                    ((env.rag "billing charges, pricing, fees, account charges".toList 2).take 300))] }
      ({ st1 with final_action := "billing_followup".toList, completed := true }, [])
    else if last.agent = "technical_support".toList then
      let st1 :=
        if isAffirmative technicalAffirmWords message then
          { st with agent_responses := st.agent_responses
              ++ [AgentResp.mk "technical_support".toList technicalCallbackConfirmText] }
        else
          { st with agent_responses := st.agent_responses
              ++ [AgentResp.mk "technical_support".toList (technicalElaborationText
                    ((env.rag message 2).take 300))] }
      ({ st1 with final_action := "technical_support_followup".toList, completed := true }, [])
    else graphInvoke env { st with intent := [], next_agent := [] }
  | none => graphInvoke env { st with intent := [], next_agent := [] }

/-- `MultiAgentWorkflow.run`: a fresh conversation runs the graph on the
initial state; a continuation dispatches on the previous state. -/
def runWorkflow (env : Env) (message email : List Char)
    (previous : Option WfState) : WfState × List (List Char × List Char) :=
  match previous with
  | some prev => runFollowup env prev message email
  | none => graphInvoke env (initialState message email)

/-- One iteration of the chat loop of src/main.py (lines 58-68): when the
previous turn was a standalone general question (intent general, routing
none), the stored state is discarded and the new message starts fresh. -/
def mainStep (env : Env) (conversationState : Option WfState)
    (message email : List Char) : WfState × List (List Char × List Char) :=
  let stored :=
    match conversationState with
    | some s =>
      if s.intent = "general".toList ∧ s.next_agent = "none".toList then none
      else some s
    | none => none
  runWorkflow env message email stored

/-! ## Theorems -/

set_option maxRecDepth 8000

/-- A character of a list is a one-character substring of it. -/
theorem isSubstr_singleton_of_mem {c : Char} {l : List Char} (h : c ∈ l) :
    isSubstr [c] l = true := by
  induction l with
  | nil => cases h
  | cons a t ih =>
    rcases List.mem_cons.mp h with h1 | h2
    · subst h1
      simp [isSubstr, List.isPrefixOf]
    · simp [isSubstr, ih h2]

/-- The percent sign is preserved by lower-casing, so membership carries to
the lower-cased string. -/
theorem pct_mem_lowerStr {l : List Char} (h : '%' ∈ l) : '%' ∈ lowerStr l := by
  have : lowerChar '%' = '%' := by decide
  exact this ▸ List.mem_map_of_mem lowerChar h

/-- When the percent scan finds a match, the text holds a percent sign. -/
theorem percentScan_some_mem :
    ∀ (l : List Char) (st : Option (Nat × Bool)) (r : Nat),
      percentScan st l = some r → '%' ∈ l := by
  intro l
  induction l with
  | nil => intro st r h; simp [percentScan] at h
  | cons c cs ih =>
    intro st r h
    unfold percentScan at h
    by_cases hd : isDigitCh c = true
    · rw [if_pos hd] at h
      rcases st with _ | ⟨v, b⟩
      · exact List.mem_cons_of_mem _ (ih _ _ h)
      · cases b
        · exact List.mem_cons_of_mem _ (ih _ _ h)
        · exact List.mem_cons_of_mem _ (ih _ _ h)
    · rw [if_neg hd] at h
      by_cases hp : c = '%'
      · exact hp ▸ List.mem_cons_self _ _
      · rw [if_neg hp] at h
        by_cases hs : isPySpace c = true
        · rw [if_pos hs] at h
          rcases st with _ | ⟨v, b⟩
          · exact List.mem_cons_of_mem _ (ih _ _ h)
          · exact List.mem_cons_of_mem _ (ih _ _ h)
        · rw [if_neg hs] at h
          exact List.mem_cons_of_mem _ (ih _ _ h)

/-- The intent field of the fallback dictionary. -/
theorem parse_fallback_intent (text email : List Char) :
    (parse_fallback text email).lookup "intent".toList = some (fallbackIntent text) := rfl

/-- The routing field of the fallback dictionary. -/
theorem parse_fallback_next (text email : List Char) :
    (parse_fallback text email).lookup "next_agent".toList
      = some (fallbackNextAgent (fallbackIntent text)) := rfl

/-- Claim C1: in the deterministic fallback classifier, any message holding a
cancellation-cascade phrase — in particular one that also holds a
technical-malfunction or billing-discrepancy phrase — is classified as
cancellation routed to retention, and the technical_support and billing
intents are only produced when no cancellation phrase is present. -/
theorem fallback_cancellation_precedence (text email : List Char) :
    ((∃ p ∈ cancellationPhrases, isSubstr p (lowerStr text) = true) →
      (parse_fallback text email).lookup "intent".toList = some "cancellation".toList ∧
      (parse_fallback text email).lookup "next_agent".toList = some "retention".toList) ∧
    (((parse_fallback text email).lookup "intent".toList = some "technical_support".toList ∨
      (parse_fallback text email).lookup "intent".toList = some "billing".toList) →
      ∀ p ∈ cancellationPhrases, isSubstr p (lowerStr text) = false) := by
  have hint : (parse_fallback text email).lookup "intent".toList
      = some (fallbackIntent text) := parse_fallback_intent text email
  constructor
  · intro hex
    have hany : cancellationPhrases.any (fun p => isSubstr p (lowerStr text)) = true :=
      List.any_eq_true.mpr hex
    have hcanc : fallbackIntent text = "cancellation".toList := by
      unfold fallbackIntent
      rw [if_pos hany]
    refine ⟨?_, ?_⟩
    · rw [hint, hcanc]
    · rw [parse_fallback_next, hcanc]
      rfl
  · intro hor p hp
    by_contra hne
    have hsub : isSubstr p (lowerStr text) = true := by
      cases h : isSubstr p (lowerStr text)
      · exact absurd h hne
      · rfl
    have hany : cancellationPhrases.any (fun p => isSubstr p (lowerStr text)) = true :=
      List.any_eq_true.mpr ⟨p, hp, hsub⟩
    have hcanc : fallbackIntent text = "cancellation".toList := by
      unfold fallbackIntent
      rw [if_pos hany]
    rcases hor with h | h <;> rw [hint, hcanc] at h <;>
      simp only [Option.some.injEq] at h <;> exact absurd h (by decide)

/-- Witness for C1 at a message combining a cancellation request with a
technical-malfunction phrase. -/
theorem fallback_cancellation_precedence_witness :
    (∃ p ∈ cancellationPhrases,
        isSubstr p (lowerStr "My phone keeps overheating, I want to cancel Care+".toList) = true) ∧
    (parse_fallback "My phone keeps overheating, I want to cancel Care+".toList []).lookup
        "intent".toList = some "cancellation".toList ∧
    (parse_fallback "My phone keeps overheating, I want to cancel Care+".toList []).lookup
        "next_agent".toList = some "retention".toList := by
  have hex : ∃ p ∈ cancellationPhrases,
      isSubstr p (lowerStr "My phone keeps overheating, I want to cancel Care+".toList) = true := by
    refine ⟨"cancel".toList, by decide, by decide⟩
  exact ⟨hex, (fallback_cancellation_precedence _ []).1 hex⟩

/-- Claim C2: the cancellation flag of the retention agent is true exactly
when the lower-cased response text holds at least one acceptance phrase and
none of the offer-presenting phrases; it is false whenever either condition
fails. -/
theorem should_process_cancellation_iff (response : List Char) :
    shouldProcessCancellation response = true ↔
      ((∃ p ∈ acceptancePhrases, isSubstr p (lowerStr response) = true) ∧
       (∀ p ∈ offerPhrases, isSubstr p (lowerStr response) = false)) := by
  unfold shouldProcessCancellation
  rw [Bool.and_eq_true, List.any_eq_true, Bool.not_eq_true']
  constructor
  · rintro ⟨hacc, hoff⟩
    refine ⟨hacc, ?_⟩
    intro p hp
    by_contra hne
    have h : isSubstr p (lowerStr response) = true := by
      cases h2 : isSubstr p (lowerStr response)
      · exact absurd h2 hne
      · rfl
    have hany : offerPhrases.any (fun q => isSubstr q (lowerStr response)) = true :=
      List.any_eq_true.mpr ⟨p, hp, h⟩
    rw [hoff] at hany
    cases hany
  · rintro ⟨hacc, hoff⟩
    refine ⟨hacc, ?_⟩
    cases h : offerPhrases.any (fun p => isSubstr p (lowerStr response))
    · rfl
    · rcases List.any_eq_true.mp h with ⟨p, hp, hsub⟩
      rw [hoff p hp] at hsub
      cases hsub

/-- Claim C3: the agent-authorized list built by the retention agent is
exactly the sublist of catalog offers whose authorization tag is `agent` or
absent, and every manager-tagged offer is excluded from it. -/
theorem authorization_split_agent_exact (offers : List Offer) :
    (authorizationSplit offers).1 = offers.filter
      (fun o => (o.lookup "authorization".toList == some "agent".toList)
        || (o.lookup "authorization".toList).isNone) ∧
    ∀ o ∈ offers, o.lookup "authorization".toList = some "manager".toList →
      o ∉ (authorizationSplit offers).1 := by
  have hfil : (authorizationSplit offers).1 = offers.filter
      (fun o => (o.lookup "authorization".toList == some "agent".toList)
        || (o.lookup "authorization".toList).isNone) := by
    induction offers with
    | nil => rfl
    | cons o rest ih =>
      unfold authorizationSplit
      rw [List.filter_cons]
      split_ifs <;> simp_all <;>
        first
        | (rename_i hall hex
           obtain ⟨x, hx⟩ := hex
           exact hall _ _ hx rfl)
        | (rename_i hex hall
           obtain ⟨x, hx⟩ := hex
           exact hall _ _ hx rfl)
  refine ⟨hfil, ?_⟩
  intro o ho hm hmem
  rw [hfil] at hmem
  have hp := List.of_mem_filter hmem
  rw [hm] at hp
  simp at hp

/-- Witness for C3: a two-offer catalog with one manager-tagged offer and one
untagged offer splits as stated. -/
theorem authorization_split_agent_exact_witness :
    (authorizationSplit
        [[("authorization".toList, "manager".toList)],
         [("type".toList, "explain_benefits".toList)]]).1
      = [[("type".toList, "explain_benefits".toList)]] ∧
    ([("authorization".toList, "manager".toList)] : Offer) ∉
      (authorizationSplit
        [[("authorization".toList, "manager".toList)],
         [("type".toList, "explain_benefits".toList)]]).1 := by
  refine ⟨by decide, ?_⟩
  exact (authorization_split_agent_exact
      [[("authorization".toList, "manager".toList)],
       [("type".toList, "explain_benefits".toList)]]).2
    _ (by decide) (by decide)

/-- Claim C10: an offer whose authorization tag is present but neither
`agent` nor `manager` lands in neither list of the authorization split — the
split is not a partition, and such offers vanish from the returned offer
list. -/
theorem authorization_split_drops_unknown_tag (offers : List Offer) (o : Offer)
    (s : List Char) (hs : o.lookup "authorization".toList = some s)
    (hagent : s ≠ "agent".toList) (hmanager : s ≠ "manager".toList) :
    o ∉ (authorizationSplit offers).1 ∧ o ∉ (authorizationSplit offers).2 := by
  have hna : ¬(o.lookup "authorization".toList = some "agent".toList) := by
    rw [hs]; intro h; exact hagent (Option.some.inj h)
  have hnm : ¬(o.lookup "authorization".toList = some "manager".toList) := by
    rw [hs]; intro h; exact hmanager (Option.some.inj h)
  have hnn : ¬((o.lookup "authorization".toList).isNone = true) := by
    rw [hs]; intro h; cases h
  induction offers with
  | nil => exact ⟨List.not_mem_nil o, List.not_mem_nil o⟩
  | cons x rest ih =>
    unfold authorizationSplit
    split_ifs with h1 h2 h3
    · refine ⟨?_, ih.2⟩
      intro hmem
      rcases List.mem_cons.mp hmem with he | hm
      · exact hna (he ▸ h1)
      · exact ih.1 hm
    · refine ⟨ih.1, ?_⟩
      intro hmem
      rcases List.mem_cons.mp hmem with he | hm
      · exact hnm (he ▸ h2)
      · exact ih.2 hm
    · refine ⟨?_, ih.2⟩
      intro hmem
      rcases List.mem_cons.mp hmem with he | hm
      · exact hnn (he ▸ h3)
      · exact ih.1 hm
    · exact ih

/-- Witness for C10 at a director-tagged offer. -/
theorem authorization_split_drops_unknown_tag_witness :
    ([("authorization".toList, "director".toList)] : Offer) ∉
      (authorizationSplit [[("authorization".toList, "director".toList)]]).1 ∧
    ([("authorization".toList, "director".toList)] : Offer) ∉
      (authorizationSplit [[("authorization".toList, "director".toList)]]).2 :=
  authorization_split_drops_unknown_tag
    [[("authorization".toList, "director".toList)]]
    [("authorization".toList, "director".toList)]
    "director".toList (by decide) (by decide) (by decide)

/-- Claim C8: an unknown reason yields an error naming the reason; for
financial_hardship, a tier outside premium/regular/new (after lower-casing)
or a tier with no configured offer block yields an error naming the tier;
an error outcome is never a success outcome, so a misconfigured catalog is
distinguishable from a configured-but-empty offer list. -/
theorem calculate_retention_offer_errors (rules : Rules) (tier reason : List Char) :
    (rules.lookup reason = none →
      calculate_retention_offer rules tier reason
        = .err ("Unknown reason: ".toList ++ reason)) ∧
    (∀ block, rules.lookup reason = some block →
      reason = "financial_hardship".toList →
      (tierMapping (lowerStr tier) = none ∨
        ∃ tk, tierMapping (lowerStr tier) = some tk ∧ block.lookup tk = none) →
      calculate_retention_offer rules tier reason
        = .err ("No offers for tier ".toList ++ tier)) ∧
    (∀ m t r os, (OfferOutcome.err m : OfferOutcome) ≠ OfferOutcome.ok t r os) := by
  refine ⟨?_, ?_, ?_⟩
  · intro hnone
    unfold calculate_retention_offer
    rw [hnone]
  · intro block hblock hreason hbad
    unfold calculate_retention_offer
    rw [hblock, hreason]
    dsimp only
    rw [if_pos rfl]
    rcases hbad with hmap | ⟨tk, htk, hlook⟩
    · rw [hmap]
    · rw [htk]
      dsimp only
      rw [hlook]
  · intro m t r os h
    cases h

/-- Witness for C8: an unknown reason on an empty catalog, and an unmapped
tier for a configured financial_hardship block. -/
theorem calculate_retention_offer_errors_witness :
    calculate_retention_offer [] "premium".toList "bogus".toList
      = .err ("Unknown reason: bogus".toList) ∧
    calculate_retention_offer [("financial_hardship".toList, [])]
        "gold".toList "financial_hardship".toList
      = .err ("No offers for tier gold".toList) := by
  constructor
  · exact (calculate_retention_offer_errors [] "premium".toList "bogus".toList).1 rfl
  · exact (calculate_retention_offer_errors [("financial_hardship".toList, [])]
      "gold".toList "financial_hardship".toList).2.1 [] rfl rfl
      (Or.inl (by decide))

/-- Claim C5 (amended): the over-limit disclosure instruction is synthesized
exactly when the first (leftmost) digits-percent match of the message has a
value strictly above the agent ceiling; a first match at or below the
ceiling, or a message with no match, produces none.  The guard on the word
discount or a percent sign is redundant whenever a match exists. -/
theorem over_limit_request_first_match_iff (msg : List Char) (maxAgent : Nat) :
    (overLimitDiscountRequest msg maxAgent).isSome = true ↔
      ∃ r, findPercentMatch msg = some r ∧ maxAgent < r := by
  constructor
  · intro h
    unfold overLimitDiscountRequest at h
    by_cases hguard : (isSubstr "discount".toList (lowerStr msg)
        || isSubstr "%".toList (lowerStr msg)) = true
    · rw [if_pos hguard] at h
      cases hm : findPercentMatch msg with
      | none => rw [hm] at h; cases h
      | some r =>
        rw [hm] at h
        dsimp only at h
        by_cases hlt : maxAgent < r
        · exact ⟨r, rfl, hlt⟩
        · rw [if_neg hlt] at h; cases h
    · rw [if_neg hguard] at h; cases h
  · rintro ⟨r, hm, hlt⟩
    have hpct : '%' ∈ msg := percentScan_some_mem msg none r hm
    have hsub : isSubstr "%".toList (lowerStr msg) = true :=
      isSubstr_singleton_of_mem (pct_mem_lowerStr hpct)
    unfold overLimitDiscountRequest
    rw [if_pos (by rw [hsub]; exact Bool.or_true _), hm]
    dsimp only
    rw [if_pos hlt]
    rfl

/-- Counterexample for C5 as stated: this message holds the explicit
percentage request 30 percent, above the ceiling 25, yet the code keeps only
the leftmost match (5 percent) and synthesizes no disclosure instruction. -/
theorem over_limit_request_counterexample :
    isSubstr "30%".toList "Can you do 5% or maybe 30% off my plan?".toList = true ∧
    findPercentMatch "30%".toList = some 30 ∧ 25 < 30 ∧
    overLimitDiscountRequest "Can you do 5% or maybe 30% off my plan?".toList 25
      = none := by decide

/-- Claim C9 (amended): the greeter extracts the leftmost substring matched
by a brace pattern tolerating exactly one level of nested braces (not the
outermost balanced-brace object), and returns the parsed result exactly when
the extraction finds a match, parsing succeeds, and both required fields are
present; in every other case it returns the deterministic fallback. -/
theorem classify_result_dispatch (parse : List Char → Option JsonObj)
    (text message email : List Char) :
    (regexBraceSearch text = none →
      classifyResult parse text message email = parse_fallback message email) ∧
    (∀ s, regexBraceSearch text = some s → parse s = none →
      classifyResult parse text message email = parse_fallback message email) ∧
    (∀ s obj, regexBraceSearch text = some s → parse s = some obj →
      ((obj.lookup "intent".toList).isNone ∨ (obj.lookup "next_agent".toList).isNone) →
      classifyResult parse text message email = parse_fallback message email) ∧
    (∀ s obj, regexBraceSearch text = some s → parse s = some obj →
      (obj.lookup "intent".toList).isSome = true →
      (obj.lookup "next_agent".toList).isSome = true →
      classifyResult parse text message email = obj) := by
  refine ⟨?_, ?_, ?_, ?_⟩
  · intro hn
    unfold classifyResult
    rw [hn]
  · intro s hs hp
    unfold classifyResult
    rw [hs]
    dsimp only
    rw [hp]
  · intro s obj hs hp hmiss
    unfold classifyResult
    rw [hs]
    dsimp only
    rw [hp]
    dsimp only
    rw [if_neg]
    intro hboth
    rw [Bool.and_eq_true] at hboth
    rcases hmiss with hm | hm
    · rw [Option.isNone_iff_eq_none.mp hm] at hboth
      cases hboth.1
    · rw [Option.isNone_iff_eq_none.mp hm] at hboth
      cases hboth.2
  · intro s obj hs hp hi hn
    unfold classifyResult
    rw [hs]
    dsimp only
    rw [hp]
    dsimp only
    rw [if_pos]
    rw [Bool.and_eq_true]
    exact ⟨hi, hn⟩

/-- Counterexample for C9 as stated: on an output whose outermost balanced
object nests two levels deep, the extraction pattern matches an inner
object, not the outermost one, and the extracted text does not even hold the
required intent field. -/
theorem classify_extraction_counterexample :
    regexBraceSearch
        "\x7b\"intent\": \"billing\", \"next_agent\": \"billing\", \"meta\": \x7b\"x\": \x7b\"y\": 1\x7d\x7d\x7d".toList
      = some "\x7b\"x\": \x7b\"y\": 1\x7d\x7d".toList ∧
    outermostBraceObject
        "\x7b\"intent\": \"billing\", \"next_agent\": \"billing\", \"meta\": \x7b\"x\": \x7b\"y\": 1\x7d\x7d\x7d".toList
      = some
        "\x7b\"intent\": \"billing\", \"next_agent\": \"billing\", \"meta\": \x7b\"x\": \x7b\"y\": 1\x7d\x7d\x7d".toList ∧
    regexBraceSearch
        "\x7b\"intent\": \"billing\", \"next_agent\": \"billing\", \"meta\": \x7b\"x\": \x7b\"y\": 1\x7d\x7d\x7d".toList
      ≠ outermostBraceObject
        "\x7b\"intent\": \"billing\", \"next_agent\": \"billing\", \"meta\": \x7b\"x\": \x7b\"y\": 1\x7d\x7d\x7d".toList ∧
    isSubstr "intent".toList "\x7b\"x\": \x7b\"y\": 1\x7d\x7d".toList = false := by
  decide

/-- Witness for C9 on an output with no brace object: the fallback is
returned. -/
theorem classify_result_dispatch_witness :
    classifyResult (fun _ => none) "no json here".toList
        "I want to cancel".toList []
      = parse_fallback "I want to cancel".toList [] :=
  (classify_result_dispatch (fun _ => none) "no json here".toList
    "I want to cancel".toList []).1 (by decide)

/-- A concrete environment for witnesses: empty catalog, ceiling 25, no
parses, no retrieval results, no customer records, fixed generation texts. -/
def demoEnv : Env :=
  { rules := [], maxAgentDiscount := 25,
    jsonParse := fun _ => none,
    greeterText := [],
    emailFound := none,
    generalAnswer := [],
    retentionRaw := "Before we say goodbye, how about a one-month pause?".toList,
    processorText := "Your cancellation is confirmed.".toList,
    rag := fun _ _ => [],
    lookupCustomer := fun _ => none }

/-- Claim C7: when the previous turn ended with intent general and routing
none (a standalone answered question), the next message is processed from a
brand-new fresh state: the chat-loop step equals a run with no previous
state at all, so no prior turn leaks into the result. -/
theorem main_step_session_reset (env : Env) (prev : WfState)
    (message email : List Char)
    (hintent : prev.intent = "general".toList)
    (hnext : prev.next_agent = "none".toList)
    (hterm : prev.completed = true) :
    mainStep env (some prev) message email
      = runWorkflow env message email none := by
  unfold mainStep
  dsimp only
  rw [if_pos ⟨hintent, hnext⟩]

/-- Witness for C7 at a concrete terminal general-question state. -/
theorem main_step_session_reset_witness :
    mainStep demoEnv
        (some { customer_message := "What does Care+ cover?".toList,
                customer_email := [], customer_data := [],
                intent := "general".toList, next_agent := "none".toList,
                conversation_history := ["What does Care+ cover?".toList],
                agent_responses :=
                  [AgentResp.mk "greeter".toList "Care+ covers accidental damage.".toList],
                final_action := [], completed := true,
                should_process_cancellation := false })
        "I want to cancel".toList []
      = runWorkflow demoEnv "I want to cancel".toList [] none :=
  main_step_session_reset demoEnv _ "I want to cancel".toList [] rfl rfl rfl

/-- The cancellation flag recorded by the retention node is the one computed
from the cleaned generation output. -/
theorem retentionNode_flag (env : Env) (st : WfState) :
    (retentionNode env st).should_process_cancellation
      = shouldProcessCancellation (cleanResponse env.retentionRaw) := rfl

/-- The retention node appends exactly one retention response. -/
theorem retentionNode_responses (env : Env) (st : WfState) :
    (retentionNode env st).agent_responses
      = st.agent_responses
          ++ [AgentResp.mk "retention".toList (cleanResponse env.retentionRaw)] := rfl

/-- The retention node leaves the intent unchanged. -/
theorem retentionNode_intent (env : Env) (st : WfState) :
    (retentionNode env st).intent = st.intent := rfl

/-- The retention node leaves the final action unchanged. -/
theorem retentionNode_final_action (env : Env) (st : WfState) :
    (retentionNode env st).final_action = st.final_action := rfl

/-- The retention node leaves the completion flag unchanged. -/
theorem retentionNode_completed (env : Env) (st : WfState) :
    (retentionNode env st).completed = st.completed := rfl

/-- The processor node sets the final action. -/
theorem processorNode_final_action (env : Env) (st : WfState) :
    (processorNode env st).1.final_action = "cancellation_processed".toList := rfl

/-- The processor node completes the turn. -/
theorem processorNode_completed (env : Env) (st : WfState) :
    (processorNode env st).1.completed = true := rfl

/-- The processor node appends exactly one processor response. -/
theorem processorNode_responses (env : Env) (st : WfState) :
    (processorNode env st).1.agent_responses
      = st.agent_responses ++ [AgentResp.mk "processor".toList env.processorText] := rfl

/-- The processor node writes exactly one audit-log entry, whose action names
the current intent. -/
theorem processorNode_log (env : Env) (st : WfState) :
    (processorNode env st).2
      = [((st.customer_data.lookup "customer_id".toList).getD "UNKNOWN".toList,
          "cancel_".toList ++ st.intent)] := rfl

/-- On a follow-up after a retention response, the run re-invokes the
retention node on the carried-over state and then either commits through the
processor or stops, depending on the insistence check and the new flag. -/
theorem runFollowup_retention_case (env : Env) (prev : WfState)
    (message email : List Char) (last : AgentResp)
    (hlast : prev.agent_responses.getLast? = some last)
    (hagent : last.agent = "retention".toList) :
    runFollowup env prev message email
      = (if insistsOnCancel message
            || (retentionNode env
                { prev with
                  customer_message := message,
                  customer_email := if email ≠ [] then email else prev.customer_email,
                  completed := false,
                  conversation_history := prev.conversation_history ++ [message],
                  next_agent := "retention".toList }).should_process_cancellation
         then processorNode env (retentionNode env
                { prev with
                  customer_message := message,
                  customer_email := if email ≠ [] then email else prev.customer_email,
                  completed := false,
                  conversation_history := prev.conversation_history ++ [message],
                  next_agent := "retention".toList })
         else (retentionNode env
                { prev with
                  customer_message := message,
                  customer_email := if email ≠ [] then email else prev.customer_email,
                  completed := false,
                  conversation_history := prev.conversation_history ++ [message],
                  next_agent := "retention".toList }, [])) := by
  unfold runFollowup
  dsimp only
  rw [hlast]
  dsimp only
  rw [hagent, if_pos rfl]

/-- Claim C4: on a follow-up whose previous last response came from the
retention role, the run re-invokes the retention node and commits the
cancellation — processor response appended, final action
cancellation_processed, turn completed, one audit-log entry naming the
intent — exactly when the incoming message holds an insistence phrase or the
new retention flag is set; otherwise no log entry is written, the turn stays
incomplete and the retention role remains the last responder. -/
theorem retention_followup_commit (env : Env) (prev : WfState)
    (message email : List Char) (last : AgentResp)
    (hlast : prev.agent_responses.getLast? = some last)
    (hagent : last.agent = "retention".toList) :
    ((insistsOnCancel message
        || shouldProcessCancellation (cleanResponse env.retentionRaw)) = true →
      (runFollowup env prev message email).1.final_action
          = "cancellation_processed".toList ∧
      (runFollowup env prev message email).1.completed = true ∧
      (∃ r p, (runFollowup env prev message email).1.agent_responses
          = prev.agent_responses ++ [r, p] ∧
          r.agent = "retention".toList ∧ p.agent = "processor".toList) ∧
      (∃ cid, (runFollowup env prev message email).2
          = [(cid, "cancel_".toList ++ prev.intent)])) ∧
    ((insistsOnCancel message
        || shouldProcessCancellation (cleanResponse env.retentionRaw)) = false →
      (runFollowup env prev message email).1.completed = false ∧
      (runFollowup env prev message email).1.final_action = prev.final_action ∧
      (runFollowup env prev message email).2 = [] ∧
      (∃ r, (runFollowup env prev message email).1.agent_responses
          = prev.agent_responses ++ [r] ∧ r.agent = "retention".toList)) := by
  rw [runFollowup_retention_case env prev message email last hlast hagent]
  rw [retentionNode_flag]
  constructor
  · intro hC
    rw [if_pos hC]
    refine ⟨processorNode_final_action _ _, processorNode_completed _ _, ?_, ?_⟩
    · refine ⟨AgentResp.mk "retention".toList (cleanResponse env.retentionRaw),
        AgentResp.mk "processor".toList env.processorText, ?_, rfl, rfl⟩
      rw [processorNode_responses, retentionNode_responses]
      dsimp only
      rw [List.append_assoc]
      rfl
    · exact ⟨_, by rw [processorNode_log, retentionNode_intent]⟩
  · intro hC
    rw [if_neg (by rw [hC]; exact Bool.false_ne_true)]
    refine ⟨retentionNode_completed _ _, retentionNode_final_action _ _, rfl, ?_⟩
    exact ⟨AgentResp.mk "retention".toList (cleanResponse env.retentionRaw),
      retentionNode_responses _ _, rfl⟩

/-- A previous state whose last response came from the retention role. -/
def retentionPrevState : WfState :=
  { customer_message := "I cannot afford this anymore".toList,
    customer_email := "dana@example.com".toList,
    customer_data := [("customer_id".toList, "CUST_001".toList),
                      ("tier".toList, "premium".toList)],
    intent := "cancellation".toList, next_agent := "retention".toList,
    conversation_history := [],
    agent_responses := [AgentResp.mk "retention".toList "How about a pause?".toList],
    final_action := [], completed := false, should_process_cancellation := false }

/-- Witness for C4: an insisting follow-up message commits the
cancellation. -/
theorem retention_followup_commit_witness :
    (runFollowup demoEnv retentionPrevState "No, just cancel it.".toList []).1.final_action
      = "cancellation_processed".toList ∧
    (runFollowup demoEnv retentionPrevState "No, just cancel it.".toList []).1.completed
      = true :=
  let h := (retention_followup_commit demoEnv retentionPrevState
      "No, just cancel it.".toList []
      (AgentResp.mk "retention".toList "How about a pause?".toList) rfl rfl).1
      (by decide)
  ⟨h.1, h.2.1⟩

/-- Claim C6 (amended): on a follow-up after a billing or technical response,
an affirmative message gets the transfer or callback confirmation and a
non-affirmative one gets an elaboration built from freshly retrieved context;
in both cases the turn is marked completed with the corresponding follow-up
final action, no audit entry is written, and the same role stays the last
responder, so a further message is again handled by the same follow-up
branch. -/
theorem billing_technical_followup_terminal (env : Env) (prev : WfState)
    (message email : List Char) (last : AgentResp)
    (hlast : prev.agent_responses.getLast? = some last) :
    (last.agent = "billing".toList →
      (runFollowup env prev message email).1.completed = true ∧
      (runFollowup env prev message email).1.final_action = "billing_followup".toList ∧
      (runFollowup env prev message email).2 = [] ∧
      (isAffirmative billingAffirmWords message = true →
        (runFollowup env prev message email).1.agent_responses
          = prev.agent_responses
              ++ [AgentResp.mk "billing".toList billingTransferConfirmText]) ∧
      (isAffirmative billingAffirmWords message = false →
        (runFollowup env prev message email).1.agent_responses
          = prev.agent_responses
              ++ [AgentResp.mk "billing".toList (billingElaborationText
                    ((env.rag "billing charges, pricing, fees, account charges".toList 2).take 300))])) ∧
    (last.agent = "technical_support".toList →
      (runFollowup env prev message email).1.completed = true ∧
      (runFollowup env prev message email).1.final_action
          = "technical_support_followup".toList ∧
      (runFollowup env prev message email).2 = [] ∧
      (isAffirmative technicalAffirmWords message = true →
        (runFollowup env prev message email).1.agent_responses
          = prev.agent_responses
              ++ [AgentResp.mk "technical_support".toList technicalCallbackConfirmText]) ∧
      (isAffirmative technicalAffirmWords message = false →
        (runFollowup env prev message email).1.agent_responses
          = prev.agent_responses
              ++ [AgentResp.mk "technical_support".toList (technicalElaborationText
                    ((env.rag message 2).take 300))])) := by
  constructor
  · intro hb
    unfold runFollowup
    dsimp only
    rw [hlast]
    dsimp only
    rw [hb, if_neg (by decide), if_pos rfl]
    by_cases haff : isAffirmative billingAffirmWords message = true
    · rw [if_pos haff]
      exact ⟨rfl, rfl, rfl, fun _ => rfl,
        fun hfa => absurd haff (by rw [hfa]; exact Bool.false_ne_true)⟩
    · rw [if_neg haff]
      exact ⟨rfl, rfl, rfl, fun hta => absurd hta haff, fun _ => rfl⟩
  · intro ht
    unfold runFollowup
    dsimp only
    rw [hlast]
    dsimp only
    rw [ht, if_neg (by decide), if_neg (by decide), if_pos rfl]
    by_cases haff : isAffirmative technicalAffirmWords message = true
    · rw [if_pos haff]
      exact ⟨rfl, rfl, rfl, fun _ => rfl,
        fun hfa => absurd haff (by rw [hfa]; exact Bool.false_ne_true)⟩
    · rw [if_neg haff]
      exact ⟨rfl, rfl, rfl, fun hta => absurd hta haff, fun _ => rfl⟩

/-- A previous state whose last response came from the billing role. -/
def billingPrevState : WfState :=
  { customer_message := "I got charged 17.99".toList,
    customer_email := [], customer_data := [],
    intent := "billing".toList, next_agent := "billing".toList,
    conversation_history := [],
    agent_responses := [AgentResp.mk "billing".toList billingRouteText],
    final_action := "routed_to_billing".toList, completed := true,
    should_process_cancellation := false }

/-- Counterexample for C6 as stated: a non-affirmative billing follow-up is
claimed to leave the conversation in a non-terminal awaiting state, yet the
run marks the turn completed (terminal) just like the affirmative branch. -/
theorem billing_followup_counterexample :
    isAffirmative billingAffirmWords "what is the charge for".toList = false ∧
    (runFollowup demoEnv billingPrevState "what is the charge for".toList []).1.completed
      = true := by decide

/-- Witness for C6 on an affirmative billing follow-up. -/
theorem billing_technical_followup_terminal_witness :
    (runFollowup demoEnv billingPrevState "yes please".toList []).1.final_action
      = "billing_followup".toList ∧
    (runFollowup demoEnv billingPrevState "yes please".toList []).1.agent_responses
      = billingPrevState.agent_responses
          ++ [AgentResp.mk "billing".toList billingTransferConfirmText] :=
  let h := (billing_technical_followup_terminal demoEnv billingPrevState
      "yes please".toList [] (AgentResp.mk "billing".toList billingRouteText) rfl).1 rfl
  ⟨h.2.1, h.2.2.2.1 (by decide)⟩
